import Mathlib

/-!
# Verification of the STMS task-scheduling system

Shallow embedding of the scheduling / execution / notification-decision core of
the STMS repository, together with theorems settling the frozen claims about it.

Embedded from source:
* `TaskService` (`src/server/services/task.service.ts`): task mutation
  (`updateTask`, `deleteTask`, `toggleTaskStatus`) and the two executors
  (`executeKeepaliveTask`, `executeNotificationTask`) plus the recording step
  (`logExecution`).  External collaborators (the `fetch` transport, the clock,
  the database) are passed in as explicit oracle values, so every run is a pure
  function of the task and the collaborator outcomes.

Modelled from the spec (the corresponding source files
`server/services/notification.service.ts` and `server/services/cron.service.ts`
are not part of the provided sources; only their tests and callers are):
* `NotificationService` (failure-alert threshold rule, recovery-alert rule,
  channel fan-out);
* `CronService.isDue` (the recurrence-rule evaluator).
-/

/-- Execution status of one run, as persisted in `execution_logs.status`. -/
inductive Status where
  | success
  | failure
  deriving DecidableEq, Repr

namespace NotificationService

/-- Modelled from the spec: per-user notification settings (spec §3
`NotificationSettings`) — enabled flags per channel (email, webhook, the
NotifyX push channel) plus the consecutive-failure threshold.  The source file
`server/services/notification.service.ts` is absent from the provided sources. -/
structure NotificationSettings where
  email_enabled : Bool
  webhook_enabled : Bool
  notifyx_enabled : Bool
  failure_threshold : Nat
  deriving DecidableEq, Repr

/-- A notification delivery channel (spec §4.3 channel fan-out). -/
inductive Channel where
  | email
  | webhook
  | notifyx
  deriving DecidableEq, Repr

/-- Modelled from the spec (§4.3, source file absent): "count the number of
*consecutive* most-recent execution logs for the task that are failures
(scanning newest-first, stopping at the first success or at the configured
threshold count)".  `cap` is the configured threshold count at which scanning
stops; `logs` lists the statuses newest-first. -/
def countConsecutiveFailures : Nat → List Status → Nat
  | 0, _ => 0
  | _ + 1, [] => 0
  | _ + 1, Status.success :: _ => 0
  | cap + 1, Status.failure :: rest => countConsecutiveFailures cap rest + 1

/-- The uncapped consecutive-failure run of a newest-first log list: the number
of failure logs before the first success (spec glossary
"consecutive-failure count"). -/
def consecutiveFailureRun : List Status → Nat
  | [] => 0
  | Status.success :: _ => 0
  | Status.failure :: rest => consecutiveFailureRun rest + 1

/-- Modelled from the spec (§4.3, source file absent): "Alert fires iff that
consecutive-failure count is `>= threshold`." -/
def failureAlertFires (threshold : Nat) (logs : List Status) : Bool :=
  decide (threshold ≤ countConsecutiveFailures threshold logs)

/-- The channels enabled in the given settings, in fan-out order. -/
def enabledChannels (s : NotificationSettings) : List Channel :=
  (if s.notifyx_enabled then [Channel.notifyx] else []) ++
  (if s.email_enabled then [Channel.email] else []) ++
  (if s.webhook_enabled then [Channel.webhook] else [])

/-- The outcome of one `sendFailureAlert` call: its overall success flag and
how many per-channel delivery attempts it performed. -/
structure AlertSendResult where
  success : Bool
  attempts : Nat
  deriving DecidableEq, Repr

/-- Modelled from the spec: `NotificationService.sendFailureAlert` (source file
absent).  Gate on the consecutive-failure threshold; on firing, fan out to each
enabled channel independently (`deliver` abstracts the per-channel transport
outcome); with zero enabled channels the call "skips as success" (spec §4.3);
below the threshold the alert is skipped, also as success. -/
def sendFailureAlert (s : NotificationSettings) (logs : List Status)
    (deliver : Channel → Bool) : AlertSendResult :=
  if failureAlertFires s.failure_threshold logs then
    let cs := enabledChannels s
    { success := cs.isEmpty || cs.any deliver, attempts := cs.length }
  else
    { success := true, attempts := 0 }

/-- Modelled from the spec: `NotificationService.shouldSendRecoveryAlert`
(source file absent): "fetch the two most recent execution logs ordered by
execution time descending; fires iff the newest is `success` and the
immediately preceding one is `failure`.  Fewer than two logs ⇒ no recovery
alert."  `logs` lists the statuses newest-first, the order the quoted
descending query returns them in. -/
def shouldSendRecoveryAlert (logs : List Status) : Bool :=
  match logs with
  | Status.success :: Status.failure :: _ => true
  | _ => false

end NotificationService

namespace CronService

/-- One field of a 5-field cron expression: an exact value or wildcard
(spec §4.1 input constraints). -/
inductive CronField where
  | wildcard
  | exact (n : Nat)
  deriving DecidableEq, Repr

/-- The unit of an interval-style recurrence rule (spec §4.1). -/
inductive IntervalUnit where
  | minute
  | hour
  | day
  | week
  | month
  deriving DecidableEq, Repr

/-- Minutes covered by one interval unit (a month is taken as 30 days, a model
choice the spec leaves open). -/
def unitMinutes : IntervalUnit → Nat
  | IntervalUnit.minute => 1
  | IntervalUnit.hour => 60
  | IntervalUnit.day => 1440
  | IntervalUnit.week => 10080
  | IntervalUnit.month => 43200

/-- Modelled from the spec (§4.1 and §9, source file
`server/services/cron.service.ts` absent): a recurrence rule is either a
5-field cron expression or an interval rule with unit, positive interval,
start date and an optional reminder-advance offset (in minutes). -/
inductive ExecutionRule where
  | cron (minute hour dayOfMonth month dayOfWeek : CronField)
  | interval (unit : IntervalUnit) (every : Nat) (startDate : Nat)
      (reminderAdvance : Option Nat)
  deriving DecidableEq, Repr

/-- The current instant truncated to the minute, with the calendar fields a
cron expression is matched against and the absolute minute count used for the
same-minute double-fire guard and for interval arithmetic. -/
structure CronTime where
  minute : Nat
  hour : Nat
  dayOfMonth : Nat
  month : Nat
  dayOfWeek : Nat
  epochMinute : Nat
  deriving DecidableEq, Repr

/-- Whether a cron field matches a concrete calendar value. -/
def fieldMatches : CronField → Nat → Bool
  | CronField.wildcard, _ => true
  | CronField.exact n, v => n == v

/-- Modelled from the spec: the recurrence-rule evaluator
`isDue(rule, lastExecutedAt, now)` of spec §4.1 (the `CronService` source file
is absent; `verify_modules.js` only imports it).  Cron semantics: due iff every
field of `now` (truncated to the minute) matches and the task has not already
executed during the current matching minute.  Interval semantics: due when
`now >= startDate` and the elapsed minutes are an exact multiple of the
interval, or when `now` falls within the reminder-advance window before the
next scheduled occurrence; the same-minute guard applies as well.
`lastExecutedAt` is the epoch minute of the last execution, if any. -/
def isDue (rule : ExecutionRule) (lastExecutedAt : Option Nat) (now : CronTime) : Bool :=
  let freshMinute : Bool :=
    match lastExecutedAt with
    | none => true
    | some t => decide (t ≠ now.epochMinute)
  match rule with
  | ExecutionRule.cron m h dom mon dow =>
    fieldMatches m now.minute && fieldMatches h now.hour &&
    fieldMatches dom now.dayOfMonth && fieldMatches mon now.month &&
    fieldMatches dow now.dayOfWeek && freshMinute
  | ExecutionRule.interval unit every startDate reminderAdvance =>
    let step := every * unitMinutes unit
    if now.epochMinute < startDate ∨ step = 0 then false
    else
      let elapsed := now.epochMinute - startDate
      let onSchedule := decide (elapsed % step = 0)
      let inReminderWindow :=
        match reminderAdvance with
        | none => false
        | some adv =>
          let next := startDate + (elapsed / step + 1) * step
          decide (next ≤ now.epochMinute + adv)
      (onSchedule || inReminderWindow) && freshMinute

end CronService

namespace TaskService

/-- The task kind, `tasks.type` in the data model (task.service.ts uses the
string union `keepalive | notification`). -/
inductive TaskType where
  | keepalive
  | notification
  deriving DecidableEq, Repr

/-- A stored task (src/server/services/task.service.ts; the type-specific
config payload is interpreted only by the transport collaborator and is
absorbed into the transport oracle below). -/
structure Task where
  id : String
  name : String
  type : TaskType
  schedule : String
  enabled : Bool
  created_by : String
  last_executed : Option String := none
  last_status : Option Status := none
  deriving DecidableEq, Repr

/-- The transient per-run result (`ExecutionResult` in
src/server/types, as built by the executors in task.service.ts). -/
structure ExecutionResult where
  success : Bool
  responseTime : Nat
  statusCode : Option Nat := none
  error : Option String := none
  deriving DecidableEq, Repr

/-- The persisted execution-log row built by `TaskService.logExecution`
(task.service.ts lines 413-433). -/
structure ExecutionLogRecord where
  task_id : String
  status : Status
  response_time : Nat
  status_code : Option Nat
  error_message : Option String
  deriving DecidableEq, Repr

/-- What the `fetch` transport collaborator did for this run: either an HTTP
response arrived (with its `ok` flag, status code, status text and body text),
or the call threw a network-level error (timeout, DNS failure, connection
refused) with the given message.  The executors never see anything else. -/
inductive FetchOutcome where
  | response (ok : Bool) (status : Nat) (statusText : String) (bodyText : String)
  | thrown (message : String)
  deriving DecidableEq, Repr

/-- One database side effect attempted by an executor, in program order:
the execution-log insert (`DatabaseUtils.createExecutionLog` via
`logExecution`) or the task update (`DatabaseUtils.updateTask` setting
`last_executed` and `last_status`). -/
inductive Effect where
  | logWrite (log : ExecutionLogRecord)
  | taskUpdate (taskId : String) (last_executed : String) (last_status : Status)
  deriving DecidableEq, Repr

/-- Embeds the record construction inside `TaskService.logExecution`
(task.service.ts lines 419-427): `status` is `failure` exactly when the
result's success flag is false, and `error_message` copies `result.error`. -/
def executionLogRecord (taskId : String) (result : ExecutionResult) : ExecutionLogRecord :=
  { task_id := taskId,
    status := if result.success then Status.success else Status.failure,
    response_time := result.responseTime,
    status_code := result.statusCode,
    error_message := result.error }

/-- Embeds the try/catch wrapped around `DatabaseUtils.createExecutionLog` in
`TaskService.logExecution` (task.service.ts lines 418-432): a failing log
write is caught and reported only as a background console error — the caller
never sees an exception, which is why this function is total and returns the
swallowed message rather than an `Except`. -/
def logExecutionBackgroundError (dbOutcome : Except String Unit) : Option String :=
  match dbOutcome with
  | Except.ok _ => none
  | Except.error e => some e

/-- Everything observable about one executor run: the returned
`ExecutionResult`, the database effects attempted, in order, and the
background error swallowed by `logExecution`, if any. -/
structure RunOutput where
  result : ExecutionResult
  effects : List Effect
  backgroundError : Option String
  deriving DecidableEq, Repr

/-- Embeds `TaskService.executeKeepaliveTask` (task.service.ts lines 243-316).
`outcome` is what the `fetch` transport did (the request construction from the
task's keepalive config — method, headers, body, timeout — only shapes the
transport call and is absorbed into this oracle); `responseTime` and `now`
stand for the clock readings; `logDbOutcome` is the database write outcome
seen by `logExecution`.  The source's `throw` on a type mismatch and any
transport error are both caught by the surrounding catch, which is why the
embedding is a total function into `RunOutput`: no exception escapes. -/
def executeKeepaliveTask (task : Task) (outcome : FetchOutcome) (responseTime : Nat)
    (now : String) (logDbOutcome : Except String Unit) : RunOutput :=
  if task.type ≠ TaskType.keepalive then
    let r : ExecutionResult :=
      { success := false, responseTime := responseTime,
        error := some "任务类型不是保活任务" }
    { result := r,
      effects := [Effect.logWrite (executionLogRecord task.id r),
                  Effect.taskUpdate task.id now Status.failure],
      backgroundError := logExecutionBackgroundError logDbOutcome }
  else
    match outcome with
    | FetchOutcome.thrown msg =>
      let r : ExecutionResult :=
        { success := false, responseTime := responseTime, error := some msg }
      { result := r,
        effects := [Effect.logWrite (executionLogRecord task.id r),
                    Effect.taskUpdate task.id now Status.failure],
        backgroundError := logExecutionBackgroundError logDbOutcome }
    | FetchOutcome.response ok status statusText _ =>
      let r : ExecutionResult :=
        { success := ok, responseTime := responseTime, statusCode := some status,
          error := if ok then none
                   else some ("HTTP " ++ toString status ++ ": " ++ statusText) }
      { result := r,
        effects := [Effect.logWrite (executionLogRecord task.id r),
                    Effect.taskUpdate task.id now
                      (if ok then Status.success else Status.failure)],
        backgroundError := logExecutionBackgroundError logDbOutcome }

/-- Embeds `TaskService.executeNotificationTask` (task.service.ts lines
324-405).  Same shape as the keepalive executor; the NotifyX request built
from the task's notification config is absorbed into the transport oracle,
and a non-ok response records the error from the status code and the response
body text. -/
def executeNotificationTask (task : Task) (outcome : FetchOutcome) (responseTime : Nat)
    (now : String) (logDbOutcome : Except String Unit) : RunOutput :=
  if task.type ≠ TaskType.notification then
    let r : ExecutionResult :=
      { success := false, responseTime := responseTime,
        error := some "任务类型不是通知任务" }
    { result := r,
      effects := [Effect.logWrite (executionLogRecord task.id r),
                  Effect.taskUpdate task.id now Status.failure],
      backgroundError := logExecutionBackgroundError logDbOutcome }
  else
    match outcome with
    | FetchOutcome.thrown msg =>
      let r : ExecutionResult :=
        { success := false, responseTime := responseTime, error := some msg }
      { result := r,
        effects := [Effect.logWrite (executionLogRecord task.id r),
                    Effect.taskUpdate task.id now Status.failure],
        backgroundError := logExecutionBackgroundError logDbOutcome }
    | FetchOutcome.response ok status _ bodyText =>
      let r : ExecutionResult :=
        { success := ok, responseTime := responseTime, statusCode := some status,
          error := if ok then none
                   else some ("通知发送失败: HTTP " ++ toString status ++ " - " ++ bodyText) }
      { result := r,
        effects := [Effect.logWrite (executionLogRecord task.id r),
                    Effect.taskUpdate task.id now
                      (if ok then Status.success else Status.failure)],
        backgroundError := logExecutionBackgroundError logDbOutcome }

/-- The canonical recording step shared by every executor branch
(task.service.ts lines 286-293, 305-312, 375-382, 394-401): one log write,
then one task update whose `last_status` follows the result's success flag
(the catch branches hard-code `failure`, and there the flag is false). -/
def recordExecution (taskId : String) (now : String) (result : ExecutionResult) :
    List Effect :=
  [Effect.logWrite (executionLogRecord taskId result),
   Effect.taskUpdate taskId now
     (if result.success then Status.success else Status.failure)]

/-- A `Partial<Task>` update payload as accepted by `DatabaseUtils.updateTask`
(fields not present are left unchanged). -/
structure TaskUpdate where
  name : Option String := none
  schedule : Option String := none
  enabled : Option Bool := none
  last_executed : Option String := none
  last_status : Option Status := none
  deriving DecidableEq, Repr

/-- Applies a partial update to a stored task. -/
def applyUpdate (t : Task) (u : TaskUpdate) : Task :=
  { t with
    name := u.name.getD t.name,
    schedule := u.schedule.getD t.schedule,
    enabled := u.enabled.getD t.enabled,
    last_executed := match u.last_executed with
      | none => t.last_executed
      | some v => some v,
    last_status := match u.last_status with
      | none => t.last_status
      | some v => some v }

/-- The storage collaborator's task table, as a list of stored tasks. -/
def Store := List Task

/-- `DatabaseUtils.getTaskById`: lookup by id. -/
def getTaskById (s : List Task) (taskId : String) : Option Task :=
  s.find? (fun t => t.id == taskId)

/-- `DatabaseUtils.updateTask`: apply a partial update to the task with the
given id, leaving every other task unchanged. -/
def dbUpdateTask (s : List Task) (taskId : String) (u : TaskUpdate) : List Task :=
  s.map (fun t => if t.id == taskId then applyUpdate t u else t)

/-- `DatabaseUtils.deleteTask`: remove the task with the given id. -/
def dbDeleteTask (s : List Task) (taskId : String) : List Task :=
  s.filter (fun t => !(t.id == taskId))

/-- The uniform service result shape `{success, error?}` returned by the task
mutation paths. -/
structure SvcResult where
  success : Bool
  error : Option String := none
  deriving DecidableEq, Repr

/-- Embeds `TaskService.updateTask` (task.service.ts lines 73-106): fetch the
task; a missing task is an error; a caller other than the creator gets the
permission error and nothing is written; otherwise the update is applied. -/
def updateTask (s : List Task) (taskId : String) (u : TaskUpdate) (userId : String) :
    SvcResult × List Task :=
  match getTaskById s taskId with
  | none => ({ success := false, error := some "任务不存在" }, s)
  | some t =>
    if t.created_by ≠ userId then
      ({ success := false, error := some "无权限更新此任务" }, s)
    else
      ({ success := true }, dbUpdateTask s taskId u)

/-- Embeds `TaskService.deleteTask` (task.service.ts lines 115-147): same
fetch-then-authorize shape; only the creator may delete. -/
def deleteTask (s : List Task) (taskId : String) (userId : String) :
    SvcResult × List Task :=
  match getTaskById s taskId with
  | none => ({ success := false, error := some "任务不存在" }, s)
  | some t =>
    if t.created_by ≠ userId then
      ({ success := false, error := some "无权限删除此任务" }, s)
    else
      ({ success := true }, dbDeleteTask s taskId)

/-- Embeds `TaskService.toggleTaskStatus` (task.service.ts lines 202-235):
fetch, authorize, then flip `enabled` through `DatabaseUtils.updateTask`. -/
def toggleTaskStatus (s : List Task) (taskId : String) (userId : String) :
    SvcResult × List Task :=
  match getTaskById s taskId with
  | none => ({ success := false, error := some "任务不存在" }, s)
  | some t =>
    if t.created_by ≠ userId then
      ({ success := false, error := some "无权限修改此任务" }, s)
    else
      ({ success := true }, dbUpdateTask s taskId { enabled := some (!t.enabled) })

end TaskService

/-! ## Helper lemmas -/

/-- The capped scan equals the threshold-clipped uncapped failure run. -/
theorem countConsecutiveFailures_eq_min (cap : Nat) (l : List Status) :
    NotificationService.countConsecutiveFailures cap l =
      min cap (NotificationService.consecutiveFailureRun l) := by
  induction l generalizing cap with
  | nil =>
    cases cap <;>
      simp only [NotificationService.countConsecutiveFailures,
        NotificationService.consecutiveFailureRun, Nat.min_zero, Nat.zero_min]
  | cons a rest ih =>
    cases a <;> cases cap <;>
      simp [NotificationService.countConsecutiveFailures,
        NotificationService.consecutiveFailureRun, ih]
    all_goals omega

/-- A success at position `i` (newest-first) bounds the failure run by `i`. -/
theorem consecutiveFailureRun_le_of_success (l : List Status) (i : Nat)
    (h : l.get? i = some Status.success) :
    NotificationService.consecutiveFailureRun l ≤ i := by
  induction l generalizing i with
  | nil => simp at h
  | cons a rest ih =>
    cases a with
    | success => simp [NotificationService.consecutiveFailureRun]
    | failure =>
      cases i with
      | zero => simp at h
      | succ j =>
        simp only [List.get?] at h
        have := ih j h
        simp only [NotificationService.consecutiveFailureRun]
        omega

/-! ## Claim theorems -/

/-- Claim C1: for every task and per-user failure threshold `k ≥ 1`, the
failure alert fires iff the number of consecutive failure-status logs, counted
newest-first and stopping at the first success, is at least `k`; if any one of
the newest `k` logs is a success, no alert is sent. -/
theorem failureAlert_fires_iff_threshold (k : Nat) (_hk : 1 ≤ k) (logs : List Status) :
    (NotificationService.failureAlertFires k logs = true ↔
      k ≤ NotificationService.consecutiveFailureRun logs) ∧
    (∀ i : Nat, i < k → logs.get? i = some Status.success →
      NotificationService.failureAlertFires k logs = false) := by
  constructor
  · simp only [NotificationService.failureAlertFires,
      countConsecutiveFailures_eq_min, decide_eq_true_eq]
    omega
  · intro i hi hsucc
    have hle := consecutiveFailureRun_le_of_success logs i hsucc
    simp only [NotificationService.failureAlertFires,
      countConsecutiveFailures_eq_min, decide_eq_false_iff_not]
    omega

theorem failureAlert_fires_iff_threshold_witness :
    NotificationService.failureAlertFires 2 [Status.failure, Status.failure] = true :=
  (failureAlert_fires_iff_threshold 2 (by decide) [Status.failure, Status.failure]).1.mpr
    (by decide)

/-- Claim C2: the recovery alert fires iff there are at least two execution
logs and, newest-first, the first is a success and the second a failure; with
fewer than two logs, or two equal newest statuses, it does not fire. -/
theorem shouldSendRecoveryAlert_iff (logs : List Status) :
    NotificationService.shouldSendRecoveryAlert logs = true ↔
      2 ≤ logs.length ∧ logs.get? 0 = some Status.success ∧
        logs.get? 1 = some Status.failure := by
  match logs with
  | [] => simp [NotificationService.shouldSendRecoveryAlert]
  | [a] => cases a <;> simp [NotificationService.shouldSendRecoveryAlert]
  | a :: b :: rest =>
    cases a <;> cases b <;>
      simp [NotificationService.shouldSendRecoveryAlert]

/-- Claim C8: with zero notification channels enabled, `sendFailureAlert`
returns success with zero delivery attempts — missing channel configuration is
never an error. -/
theorem sendFailureAlert_zero_channels (s : NotificationService.NotificationSettings)
    (logs : List Status) (deliver : NotificationService.Channel → Bool)
    (he : s.email_enabled = false) (hw : s.webhook_enabled = false)
    (hn : s.notifyx_enabled = false) :
    NotificationService.sendFailureAlert s logs deliver =
      { success := true, attempts := 0 } := by
  unfold NotificationService.sendFailureAlert
  split <;> simp [NotificationService.enabledChannels, he, hw, hn]

theorem sendFailureAlert_zero_channels_witness :
    NotificationService.sendFailureAlert ⟨false, false, false, 3⟩
      [Status.failure, Status.failure, Status.failure] (fun _ => true) =
      { success := true, attempts := 0 } :=
  sendFailureAlert_zero_channels ⟨false, false, false, 3⟩
    [Status.failure, Status.failure, Status.failure] (fun _ => true) rfl rfl rfl

/-- Claim C9: the recurrence-rule evaluation is a pure, deterministic function
of `(rule, lastExecutedAt, now)`: two calls with identical arguments return
identical results.  Freedom from side effects is expressed by the embedding
itself — `CronService.isDue` is a total function of exactly these three
arguments and nothing else. -/
theorem isDue_deterministic (r₁ r₂ : CronService.ExecutionRule)
    (l₁ l₂ : Option Nat) (n₁ n₂ : CronService.CronTime)
    (hr : r₁ = r₂) (hl : l₁ = l₂) (hn : n₁ = n₂) :
    CronService.isDue r₁ l₁ n₁ = CronService.isDue r₂ l₂ n₂ := by
  subst hr; subst hl; subst hn; rfl

theorem isDue_deterministic_witness :
    CronService.isDue
      (CronService.ExecutionRule.interval CronService.IntervalUnit.day 1 0 none)
      none ⟨0, 0, 1, 1, 4, 1440⟩ =
    CronService.isDue
      (CronService.ExecutionRule.interval CronService.IntervalUnit.day 1 0 none)
      none ⟨0, 0, 1, 1, 4, 1440⟩ :=
  isDue_deterministic _ _ _ _ _ _ rfl rfl rfl

/-- Claim C3: for a keepalive task, the run is classified a success exactly by
the transport's `ok` flag (so an HTTP 500 response with `ok = false` yields
`success = false` and `statusCode = 500`), and a thrown network-level error is
caught into a failure result carrying the error's message.  No error escapes
the executor: `TaskService.executeKeepaliveTask` is a total function into
`RunOutput`, never an exception. -/
theorem executeKeepaliveTask_classification (task : TaskService.Task)
    (outcome : TaskService.FetchOutcome) (rt : Nat) (now : String)
    (logDb : Except String Unit)
    (ht : task.type = TaskService.TaskType.keepalive) :
    (∀ ok status st bt,
      outcome = TaskService.FetchOutcome.response ok status st bt →
      (TaskService.executeKeepaliveTask task outcome rt now logDb).result.success = ok ∧
      (TaskService.executeKeepaliveTask task outcome rt now logDb).result.statusCode =
        some status) ∧
    (∀ msg, outcome = TaskService.FetchOutcome.thrown msg →
      (TaskService.executeKeepaliveTask task outcome rt now logDb).result.success = false ∧
      (TaskService.executeKeepaliveTask task outcome rt now logDb).result.error =
        some msg) := by
  constructor
  · rintro ok status st bt rfl
    simp [TaskService.executeKeepaliveTask, ht]
  · rintro msg rfl
    simp [TaskService.executeKeepaliveTask, ht]

theorem executeKeepaliveTask_classification_witness :
    (TaskService.executeKeepaliveTask
      { id := "task-1", name := "ping", type := TaskService.TaskType.keepalive,
        schedule := "*/5 * * * *", enabled := true, created_by := "user-1" }
      (TaskService.FetchOutcome.response false 500 "Internal Server Error" "") 100
      "2026-01-01T00:00:00Z" (Except.ok ())).result.success = false ∧
    (TaskService.executeKeepaliveTask
      { id := "task-1", name := "ping", type := TaskService.TaskType.keepalive,
        schedule := "*/5 * * * *", enabled := true, created_by := "user-1" }
      (TaskService.FetchOutcome.response false 500 "Internal Server Error" "") 100
      "2026-01-01T00:00:00Z" (Except.ok ())).result.statusCode = some 500 :=
  (executeKeepaliveTask_classification _ _ _ _ _ rfl).1 false 500
    "Internal Server Error" "" rfl

/-- Claim C4: recording an `ExecutionResult` with `success = false` and
`error = some x` writes an execution log with `status = failure` and
`error_message = some x`, and the accompanying task update sets `last_status`
to `failure`. -/
theorem record_failure_roundtrip (taskId now : String)
    (result : TaskService.ExecutionResult) (x : String)
    (h1 : result.success = false) (h2 : result.error = some x) :
    (TaskService.executionLogRecord taskId result).status = Status.failure ∧
    (TaskService.executionLogRecord taskId result).error_message = some x ∧
    TaskService.recordExecution taskId now result =
      [TaskService.Effect.logWrite (TaskService.executionLogRecord taskId result),
       TaskService.Effect.taskUpdate taskId now Status.failure] := by
  refine ⟨?_, ?_, ?_⟩ <;>
    simp [TaskService.executionLogRecord, TaskService.recordExecution, h1, h2]

theorem record_failure_roundtrip_witness :
    (TaskService.executionLogRecord "task-1"
      { success := false, responseTime := 100, error := some "X" }).status =
      Status.failure :=
  (record_failure_roundtrip "task-1" "2026-01-01T00:00:00Z"
    { success := false, responseTime := 100, error := some "X" } "X" rfl rfl).1

/-- Every keepalive-executor branch performs exactly the canonical recording
step on its own result. -/
theorem executeKeepaliveTask_effects_eq (task : TaskService.Task)
    (outcome : TaskService.FetchOutcome) (rt : Nat) (now : String)
    (logDb : Except String Unit) :
    (TaskService.executeKeepaliveTask task outcome rt now logDb).effects =
      TaskService.recordExecution task.id now
        (TaskService.executeKeepaliveTask task outcome rt now logDb).result := by
  by_cases h : task.type = TaskService.TaskType.keepalive
  · cases outcome with
    | response ok status st bt =>
      cases ok <;>
        simp [TaskService.executeKeepaliveTask, TaskService.recordExecution, h]
    | thrown msg =>
      simp [TaskService.executeKeepaliveTask, TaskService.recordExecution, h]
  · simp [TaskService.executeKeepaliveTask, TaskService.recordExecution, h]

/-- Every notification-executor branch performs exactly the canonical
recording step on its own result. -/
theorem executeNotificationTask_effects_eq (task : TaskService.Task)
    (outcome : TaskService.FetchOutcome) (rt : Nat) (now : String)
    (logDb : Except String Unit) :
    (TaskService.executeNotificationTask task outcome rt now logDb).effects =
      TaskService.recordExecution task.id now
        (TaskService.executeNotificationTask task outcome rt now logDb).result := by
  by_cases h : task.type = TaskService.TaskType.notification
  · cases outcome with
    | response ok status st bt =>
      cases ok <;>
        simp [TaskService.executeNotificationTask, TaskService.recordExecution, h]
    | thrown msg =>
      simp [TaskService.executeNotificationTask, TaskService.recordExecution, h]
  · simp [TaskService.executeNotificationTask, TaskService.recordExecution, h]

/-- The keepalive executor's background error is exactly what `logExecution`
swallowed from the log write, independent of the branch taken. -/
theorem executeKeepaliveTask_backgroundError (task : TaskService.Task)
    (outcome : TaskService.FetchOutcome) (rt : Nat) (now : String)
    (logDb : Except String Unit) :
    (TaskService.executeKeepaliveTask task outcome rt now logDb).backgroundError =
      TaskService.logExecutionBackgroundError logDb := by
  by_cases h : task.type = TaskService.TaskType.keepalive
  · cases outcome <;> simp [TaskService.executeKeepaliveTask, h]
  · simp [TaskService.executeKeepaliveTask, h]

/-- Claim C5: after every keepalive or notification run — success, failed HTTP
call, or caught exception — the executor's final effect is the task update
setting `last_executed` to the current time and `last_status` to `success`
exactly when the result's success flag holds; the update is never skipped. -/
theorem executor_always_updates_task (task : TaskService.Task)
    (outcome : TaskService.FetchOutcome) (rt : Nat) (now : String)
    (logDb : Except String Unit) :
    (TaskService.executeKeepaliveTask task outcome rt now logDb).effects.getLast? =
      some (TaskService.Effect.taskUpdate task.id now
        (if (TaskService.executeKeepaliveTask task outcome rt now logDb).result.success
          then Status.success else Status.failure)) ∧
    (TaskService.executeNotificationTask task outcome rt now logDb).effects.getLast? =
      some (TaskService.Effect.taskUpdate task.id now
        (if (TaskService.executeNotificationTask task outcome rt now logDb).result.success
          then Status.success else Status.failure)) := by
  rw [executeKeepaliveTask_effects_eq, executeNotificationTask_effects_eq]
  constructor <;> simp [TaskService.recordExecution]

/-- Claim C6: in every keepalive run the log write precedes the task update;
a failing log write is caught inside the recording step (surfacing only as a
background error, never an exception — the executor is a total function) and
the task update is still attempted afterwards. -/
theorem logWrite_before_update_and_swallowed (task : TaskService.Task)
    (outcome : TaskService.FetchOutcome) (rt : Nat) (now : String)
    (logDb : Except String Unit) :
    (∃ rec st,
      (TaskService.executeKeepaliveTask task outcome rt now logDb).effects =
        [TaskService.Effect.logWrite rec,
         TaskService.Effect.taskUpdate task.id now st]) ∧
    ((TaskService.executeKeepaliveTask task outcome rt now logDb).backgroundError = none ↔
      logDb = Except.ok ()) ∧
    (∀ e, logDb = Except.error e →
      (TaskService.executeKeepaliveTask task outcome rt now logDb).backgroundError =
        some e) := by
  refine ⟨?_, ?_, ?_⟩
  · rw [executeKeepaliveTask_effects_eq]
    exact ⟨_, _, rfl⟩
  · rw [executeKeepaliveTask_backgroundError]
    cases logDb with
    | ok u => cases u; simp [TaskService.logExecutionBackgroundError]
    | error e => simp [TaskService.logExecutionBackgroundError]
  · rintro e rfl
    rw [executeKeepaliveTask_backgroundError]
    rfl

theorem logWrite_before_update_and_swallowed_witness :
    (TaskService.executeKeepaliveTask
      { id := "task-1", name := "ping", type := TaskService.TaskType.keepalive,
        schedule := "*/5 * * * *", enabled := true, created_by := "user-1" }
      (TaskService.FetchOutcome.thrown "getaddrinfo ENOTFOUND") 100
      "2026-01-01T00:00:00Z" (Except.error "db down")).backgroundError =
      some "db down" :=
  (logWrite_before_update_and_swallowed _ _ _ _ _).2.2 "db down" rfl

/-- Claim C7: an executor invoked on a task of the wrong declared type returns
a failure result that is recorded as a failed execution (failure log write,
failure task update); the internal `throw` is caught by the executor's own
catch, so — the embedding being a total function — no exception propagates out
of it. -/
theorem executor_type_mismatch (task : TaskService.Task)
    (outcome : TaskService.FetchOutcome) (rt : Nat) (now : String)
    (logDb : Except String Unit) :
    (task.type ≠ TaskService.TaskType.keepalive →
      (TaskService.executeKeepaliveTask task outcome rt now logDb).result.success =
        false ∧
      (TaskService.executeKeepaliveTask task outcome rt now logDb).effects =
        [TaskService.Effect.logWrite
          (TaskService.executionLogRecord task.id
            (TaskService.executeKeepaliveTask task outcome rt now logDb).result),
         TaskService.Effect.taskUpdate task.id now Status.failure] ∧
      (TaskService.executionLogRecord task.id
        (TaskService.executeKeepaliveTask task outcome rt now logDb).result).status =
        Status.failure) ∧
    (task.type ≠ TaskService.TaskType.notification →
      (TaskService.executeNotificationTask task outcome rt now logDb).result.success =
        false ∧
      (TaskService.executeNotificationTask task outcome rt now logDb).effects =
        [TaskService.Effect.logWrite
          (TaskService.executionLogRecord task.id
            (TaskService.executeNotificationTask task outcome rt now logDb).result),
         TaskService.Effect.taskUpdate task.id now Status.failure] ∧
      (TaskService.executionLogRecord task.id
        (TaskService.executeNotificationTask task outcome rt now logDb).result).status =
        Status.failure) := by
  constructor
  · intro h
    simp [TaskService.executeKeepaliveTask, h, TaskService.executionLogRecord]
  · intro h
    simp [TaskService.executeNotificationTask, h, TaskService.executionLogRecord]

theorem executor_type_mismatch_witness :
    (TaskService.executeKeepaliveTask
      { id := "task-n", name := "notify", type := TaskService.TaskType.notification,
        schedule := "*/5 * * * *", enabled := true, created_by := "user-1" }
      (TaskService.FetchOutcome.response true 200 "OK" "OK") 50
      "2026-01-01T00:00:00Z" (Except.ok ())).result.success = false ∧
    (TaskService.executeNotificationTask
      { id := "task-k", name := "ping", type := TaskService.TaskType.keepalive,
        schedule := "*/5 * * * *", enabled := true, created_by := "user-1" }
      (TaskService.FetchOutcome.response true 200 "OK" "OK") 50
      "2026-01-01T00:00:00Z" (Except.ok ())).result.success = false :=
  ⟨((executor_type_mismatch
      { id := "task-n", name := "notify", type := TaskService.TaskType.notification,
        schedule := "*/5 * * * *", enabled := true, created_by := "user-1" }
      (TaskService.FetchOutcome.response true 200 "OK" "OK") 50
      "2026-01-01T00:00:00Z" (Except.ok ())).1 (by decide)).1,
   ((executor_type_mismatch
      { id := "task-k", name := "ping", type := TaskService.TaskType.keepalive,
        schedule := "*/5 * * * *", enabled := true, created_by := "user-1" }
      (TaskService.FetchOutcome.response true 200 "OK" "OK") 50
      "2026-01-01T00:00:00Z" (Except.ok ())).2 (by decide)).1⟩

/-- Claim C10: for an existing task and any caller other than its creator,
`updateTask`, `deleteTask` and `toggleTaskStatus` each return the permission
error with `success = false` and leave the task store completely unchanged. -/
theorem only_creator_can_mutate (s : List TaskService.Task) (taskId userId : String)
    (u : TaskService.TaskUpdate) (t : TaskService.Task)
    (hfind : TaskService.getTaskById s taskId = some t)
    (hown : t.created_by ≠ userId) :
    TaskService.updateTask s taskId u userId =
      ({ success := false, error := some "无权限更新此任务" }, s) ∧
    TaskService.deleteTask s taskId userId =
      ({ success := false, error := some "无权限删除此任务" }, s) ∧
    TaskService.toggleTaskStatus s taskId userId =
      ({ success := false, error := some "无权限修改此任务" }, s) := by
  refine ⟨?_, ?_, ?_⟩ <;>
    simp [TaskService.updateTask, TaskService.deleteTask,
      TaskService.toggleTaskStatus, hfind, hown]

theorem only_creator_can_mutate_witness :
    TaskService.updateTask
      [{ id := "task-1", name := "ping", type := TaskService.TaskType.keepalive,
         schedule := "*/5 * * * *", enabled := true, created_by := "user-1" }]
      "task-1" {} "intruder" =
      ({ success := false, error := some "无权限更新此任务" },
       [{ id := "task-1", name := "ping", type := TaskService.TaskType.keepalive,
          schedule := "*/5 * * * *", enabled := true, created_by := "user-1" }]) :=
  (only_creator_can_mutate
    [{ id := "task-1", name := "ping", type := TaskService.TaskType.keepalive,
       schedule := "*/5 * * * *", enabled := true, created_by := "user-1" }]
    "task-1" "intruder" {}
    { id := "task-1", name := "ping", type := TaskService.TaskType.keepalive,
      schedule := "*/5 * * * *", enabled := true, created_by := "user-1" }
    (by decide) (by decide)).1
